import Mathlib

/-!
Shallow embedding of the stock-ticker sync pipeline
(`src/script.py` and `src/scheduler.py`).

The external world is modelled explicitly:
* A Python JSON value living in a ticker record is a `PyVal`.
* A raw ticker record (a JSON object) is an association list of field
  names to `PyVal`s; `dict.get` with a `None` default is `recGet`.
* The remote API is modelled as the sequence of successive HTTP responses
  the `while url` loop of `run_stock_job` receives, one per request
  (`FetchResp`): either a body that fails JSON decoding or a decoded page.
* The Snowflake driver is modelled by an oracle `WhEnv` saying which step
  (connect / create table / insert), if any, raises, and the writer
  returns the trace of warehouse actions it performed, the lines it
  printed, and the exception it re-raised, if any (`WhResult`).
* `datetime`/`date` values are opaque strings supplied as inputs.
-/

set_option autoImplicit false

namespace StockJob

/-- A Python value as it occurs in a decoded ticker record: a string, a
boolean, `None`, or any other value (numbers etc.), kept opaque. -/
inductive PyVal where
  | str (s : String)
  | bool (b : Bool)
  | none
  | other (tag : String)
deriving DecidableEq, Repr

/-- A raw ticker record: a JSON object, i.e. an association list from
field names to values. -/
abbrev Record := List (String × PyVal)

/-- `t.get(col)` on a Python dict: the value stored under `col`, or
`None` when the key is absent. -/
def recGet (t : Record) (c : String) : PyVal :=
  (List.lookup c t).getD PyVal.none

/-- `TARGET_SCHEMA` of `script.py`: the ordered column-name/warehouse-type
pairs (Python dicts preserve insertion order). -/
def TARGET_SCHEMA : List (String × String) :=
  [("ticker", "VARCHAR"),
   ("name", "VARCHAR"),
   ("market", "VARCHAR"),
   ("locale", "VARCHAR"),
   ("primary_exchange", "VARCHAR"),
   ("type", "VARCHAR"),
   ("active", "BOOLEAN"),
   ("currency_name", "VARCHAR"),
   ("cik", "VARCHAR"),
   ("composite_figi", "VARCHAR"),
   ("share_class_figi", "VARCHAR"),
   ("last_updated_utc", "TIMESTAMP_NTZ"),
   ("ds", "VARCHAR")]

/-- `cols_order = list(TARGET_SCHEMA.keys())`. -/
def cols_order : List String := TARGET_SCHEMA.map Prod.fst

/-- Python's `str.lower()` (ASCII case folding, which is all the
comparison against `"true"`/`"false"` can observe). -/
def pyLower (s : String) : String :=
  String.mk (s.data.map Char.toLower)

/-- The boolean coercion applied to each non-`ds` field
(`script.py` lines 124-128): a string whose lower-casing is `"true"` or
`"false"` becomes the corresponding boolean; everything else is kept. -/
def coerce (val : PyVal) : PyVal :=
  match val with
  | PyVal.str s =>
      if pyLower s = "true" ∨ pyLower s = "false" then
        PyVal.bool (pyLower s = "true")
      else
        PyVal.str s
  | v => v

/-- One mapped row (`script.py` lines 117-129): for each column of
`cols_order` in order, the run's `ds_value` for the `ds` column, and the
coerced same-named record field otherwise. -/
def mapRow (ds_value : String) (t : Record) : List PyVal :=
  cols_order.map (fun col =>
    if col = "ds" then PyVal.str ds_value else coerce (recGet t col))

/-- One decoded JSON page, as `run_stock_job` reads it with `data.get`:
each field is `none` when the key is absent. -/
structure PageData where
  status : Option String
  error : Option String
  results : Option (List Record)
  next_url : Option String
deriving DecidableEq, Repr

/-- One HTTP response: either a body on which `response.json()` raises
`ValueError`, or a decoded page. -/
inductive FetchResp where
  | badJson (body : String)
  | page (p : PageData)
deriving DecidableEq, Repr

/-- Python truthiness of the `next_url` value (`while url:` / `if url:`):
`None` and the empty string are falsy. -/
def truthy : Option String → Bool
  | Option.none => false
  | Option.some s => !(s == "")

/-- The `while url` pagination loop of `run_stock_job`
(`script.py` lines 50-76), driven by the sequence of successive responses.
`acc` is the `tickers` list accumulated so far.  Decoding failure or a
non-`"OK"` status breaks out; an empty (or absent, via the `[]` default)
result list breaks out; otherwise the page's records are appended and the
loop continues exactly when the server-supplied `next_url` is truthy. -/
def fetchPages : List FetchResp → List Record → List Record
  | [], acc => acc
  | FetchResp.badJson _ :: _, acc => acc
  | FetchResp.page p :: rest, acc =>
      if p.status ≠ Option.some "OK" then acc
      else if (p.results.getD []).isEmpty then acc
      else if truthy p.next_url then fetchPages rest (acc ++ p.results.getD [])
      else acc ++ p.results.getD []

/-- The full fetch phase of `run_stock_job`: the `tickers` list handed to
the writer, starting from the empty accumulator. -/
def run_fetch (resps : List FetchResp) : List Record :=
  fetchPages resps []

/-- A warehouse operation attempted by `write_to_snowflake`. -/
inductive WhAction where
  | connect
  | createTable
  | insertRows (rows : List (List PyVal))
  | commit
  | close
deriving DecidableEq, Repr

/-- Oracle for the Snowflake driver: for each fallible step, `some e`
means that step raises exception `e`, `none` that it succeeds. -/
structure WhEnv where
  connectErr : Option String
  createErr : Option String
  insertErr : Option String
deriving DecidableEq, Repr

/-- Outcome of one call to `write_to_snowflake`: the printed lines, the
warehouse actions attempted, and the exception it re-raised, if any. -/
structure WhResult where
  log : List String
  actions : List WhAction
  exc : Option String
deriving DecidableEq, Repr

/-- `write_to_snowflake` (`script.py` lines 82-143).  An empty batch
returns before any connection attempt.  Otherwise connect, create the
table if missing, build the rows (with `ds_value` computed once for the
run), and batch-insert them; any exception from a step is printed as
`"Snowflake error: ..."` and re-raised. -/
def write_to_snowflake (env : WhEnv) (ds_value : String) (tickers : List Record) :
    WhResult :=
  if tickers.isEmpty then
    { log := ["No tickers to write"], actions := [], exc := Option.none }
  else
    match env.connectErr with
    | Option.some e =>
        { log := ["Snowflake error: " ++ e],
          actions := [WhAction.connect],
          exc := Option.some e }
    | Option.none =>
        match env.createErr with
        | Option.some e =>
            { log := ["Connected to Snowflake successfully",
                      "Snowflake error: " ++ e],
              actions := [WhAction.connect, WhAction.createTable],
              exc := Option.some e }
        | Option.none =>
            let rows := tickers.map (mapRow ds_value)
            if rows.isEmpty then
              { log := ["Connected to Snowflake successfully",
                        "Table stock_tickers created/verified or already exists",
                        "Connection closed"],
                actions := [WhAction.connect, WhAction.createTable,
                            WhAction.close],
                exc := Option.none }
            else
              match env.insertErr with
              | Option.some e =>
                  { log := ["Connected to Snowflake successfully",
                            "Table stock_tickers created/verified or already exists",
                            "Snowflake error: " ++ e],
                    actions := [WhAction.connect, WhAction.createTable,
                                WhAction.insertRows rows],
                    exc := Option.some e }
              | Option.none =>
                  { log := ["Connected to Snowflake successfully",
                            "Table stock_tickers created/verified or already exists",
                            "Successfully inserted " ++ toString rows.length
                              ++ " rows into stock_tickers",
                            "Connection closed"],
                    actions := [WhAction.connect, WhAction.createTable,
                                WhAction.insertRows rows, WhAction.commit,
                                WhAction.close],
                    exc := Option.none }

/-- A warehouse state: whether the target table exists, the committed
rows, and the rows inserted but not yet committed. -/
structure Warehouse where
  tableExists : Bool
  committed : List (List PyVal)
  pending : List (List PyVal)
deriving DecidableEq, Repr

/-- Effect of one warehouse action on the warehouse state. -/
def applyAction (w : Warehouse) : WhAction → Warehouse
  | WhAction.connect => w
  | WhAction.createTable => { w with tableExists := true }
  | WhAction.insertRows rows => { w with pending := w.pending ++ rows }
  | WhAction.commit => { w with committed := w.committed ++ w.pending,
                                pending := [] }
  | WhAction.close => w

/-- Effect of a sequence of warehouse actions. -/
def applyActions (w : Warehouse) (as : List WhAction) : Warehouse :=
  as.foldl applyAction w

/-- Outcome of one call to `run_stock_job`: the `tickers` list it passed
to `write_to_snowflake`, and the writer's result. -/
structure JobResult where
  writerArg : List Record
  writeRes : WhResult
deriving DecidableEq, Repr

/-- `run_stock_job` (`script.py` lines 41-79): paginate, then call
`write_to_snowflake` on whatever was accumulated — also after an early
`break`. -/
def run_stock_job (env : WhEnv) (ds_value : String) (resps : List FetchResp) :
    JobResult :=
  let tickers := run_fetch resps
  { writerArg := tickers, writeRes := write_to_snowflake env ds_value tickers }

/-- Outcome of one Python call: its printed lines and the exception it
let escape, if any. -/
structure PyResult where
  log : List String
  exc : Option String
deriving DecidableEq, Repr

/-- `scheduled_stock_job` (`scheduler.py` lines 11-17): run the job inside
`try`/`except Exception`; a failure is printed with a timestamp and
swallowed, so the wrapper itself never raises. -/
def scheduled_stock_job (nowStart nowEnd : String) (env : WhEnv)
    (ds_value : String) (resps : List FetchResp) : PyResult :=
  match (run_stock_job env ds_value resps).writeRes.exc with
  | Option.some e =>
      { log := [" Stock data sync started at " ++ nowStart]
                 ++ (run_stock_job env ds_value resps).writeRes.log
                 ++ [" Stock data sync failed at " ++ nowEnd ++ ": " ++ e],
        exc := Option.none }
  | Option.none =>
      { log := [" Stock data sync started at " ++ nowStart]
                 ++ (run_stock_job env ds_value resps).writeRes.log
                 ++ ["Wrote "
                       ++ toString (run_stock_job env ds_value resps).writerArg.length
                       ++ " rows to Snowflake table stock_tickers",
                     "Stock data sync completed at " ++ nowEnd],
        exc := Option.none }

/-- The environment of one fired trigger of the scheduler loop. -/
structure Tick where
  nowStart : String
  nowEnd : String
  env : WhEnv
  ds_value : String
  resps : List FetchResp

/-- The `while True: schedule.run_pending()` loop (`scheduler.py` lines
25-27), run over a finite run of fired triggers: it survives (keeps
polling) as long as no job invocation lets an exception escape, and dies
on the first one that does. -/
def scheduler_loop_survives : List Tick → Bool
  | [] => true
  | t :: ts =>
      match (scheduled_stock_job t.nowStart t.nowEnd t.env t.ds_value
               t.resps).exc with
      | Option.some _ => false
      | Option.none => scheduler_loop_survives ts

/-! ## Helper lemmas -/

lemma mapRow_length (ds_value : String) (t : Record) :
    (mapRow ds_value t).length = cols_order.length := by
  simp [mapRow]

lemma mapRow_ds (ds_value : String) (t : Record) :
    (mapRow ds_value t)[12]? = Option.some (PyVal.str ds_value) := rfl

/-- The only `insertRows` action the writer can emit carries exactly the
mapped batch. -/
lemma insert_action_rows (env : WhEnv) (ds_value : String)
    (tickers : List Record) (rs : List (List PyVal))
    (h : WhAction.insertRows rs ∈
      (write_to_snowflake env ds_value tickers).actions) :
    rs = tickers.map (mapRow ds_value) := by
  cases ht : tickers.isEmpty with
  | true => simp [write_to_snowflake, ht] at h
  | false =>
    have hne : tickers ≠ [] := by simp [List.isEmpty_iff] at ht; exact ht
    have hrows : (tickers.map (mapRow ds_value)).isEmpty = false := by
      simp [List.isEmpty_iff, hne]
    cases hc : env.connectErr with
    | some e => simp [write_to_snowflake, ht, hc] at h
    | none =>
      cases hcr : env.createErr with
      | some e => simp [write_to_snowflake, ht, hc, hcr] at h
      | none =>
        cases hi : env.insertErr with
        | some e =>
          simp [write_to_snowflake, ht, hc, hcr, hrows, hi] at h
          exact h
        | none =>
          simp [write_to_snowflake, ht, hc, hcr, hrows, hi] at h
          exact h

/-- A page that keeps the pagination loop going: success status, a
non-empty result list, and a Python-truthy next-page URL. -/
def goodPage (p : PageData) : Prop :=
  p.status = Option.some "OK" ∧ (p.results.getD []).isEmpty = false ∧
    truthy p.next_url = true

instance : DecidablePred goodPage := fun p => by
  unfold goodPage
  infer_instance

/-- The records of a list of pages, in page order. -/
def pagesRecords (pages : List PageData) : List Record :=
  (pages.map (fun p => p.results.getD [])).flatten

/-- Running the loop through a run of good pages appends all their
records to the accumulator and continues with the remaining responses. -/
lemma fetchPages_good_block (good : List PageData) (l : List FetchResp)
    (acc : List Record) (hg : ∀ p ∈ good, goodPage p) :
    fetchPages (good.map FetchResp.page ++ l) acc
      = fetchPages l (acc ++ pagesRecords good) := by
  induction good generalizing acc with
  | nil => simp [pagesRecords]
  | cons p ps ih =>
    obtain ⟨h1, h2, h3⟩ := hg p (List.mem_cons_self p ps)
    rw [List.map_cons, List.cons_append, fetchPages,
      if_neg (by simp [h1]), if_neg (by simp [h2]), if_pos h3,
      ih _ (fun q hq => hg q (List.mem_cons_of_mem p hq))]
    simp [pagesRecords]

/-- A status-`"OK"` page with an empty result list or a non-truthy
next-page URL ends the loop, contributing its own records (none when the
list is empty). -/
lemma fetchPages_terminal (p : PageData) (rest : List FetchResp)
    (acc : List Record) (hOK : p.status = Option.some "OK")
    (hstop : (p.results.getD []).isEmpty = true ∨ truthy p.next_url = false) :
    fetchPages (FetchResp.page p :: rest) acc = acc ++ p.results.getD [] := by
  rw [fetchPages, if_neg (by simp [hOK])]
  by_cases he : (p.results.getD []).isEmpty = true
  · have hnil : p.results.getD [] = [] := by simpa [List.isEmpty_iff] using he
    rw [if_pos he, hnil, List.append_nil]
  · have hs2 : truthy p.next_url = false := by
      rcases hstop with hs | hs
      · exact absurd hs he
      · exact hs
    rw [if_neg he, if_neg (by simp [hs2])]

/-- An undecodable body or a non-`"OK"` status breaks out of the loop,
keeping the accumulator. -/
lemma fetchPages_abort (r : FetchResp) (rest : List FetchResp)
    (acc : List Record)
    (habort : (∃ b, r = FetchResp.badJson b) ∨
      (∃ p, r = FetchResp.page p ∧ p.status ≠ Option.some "OK")) :
    fetchPages (r :: rest) acc = acc := by
  rcases habort with ⟨b, rfl⟩ | ⟨p, rfl, hp⟩
  · rfl
  · rw [fetchPages, if_pos hp]

/-- The wrapper around the job never lets an exception escape. -/
lemma scheduled_stock_job_exc (nowStart nowEnd : String) (env : WhEnv)
    (ds_value : String) (resps : List FetchResp) :
    (scheduled_stock_job nowStart nowEnd env ds_value resps).exc =
      Option.none := by
  unfold scheduled_stock_job
  cases h : (run_stock_job env ds_value resps).writeRes.exc <;> simp [h]

/-! ## Claims -/

/-- Claim C1: when the successive responses are a block of pages with
status `"OK"`, non-empty result lists and a (truthy) next-page URL,
followed by a status-`"OK"` page with an empty result list or without a
truthy next-page URL, the fetcher accumulates the records of every page
in order and stops exactly at that page: responses after it are never
consumed. -/
theorem C1_pagination_accumulates_and_stops (good : List PageData)
    (last : PageData) (rest : List FetchResp)
    (hg : ∀ p ∈ good, goodPage p)
    (hlast : last.status = Option.some "OK")
    (hstop : (last.results.getD []).isEmpty = true ∨
      truthy last.next_url = false) :
    run_fetch (good.map FetchResp.page ++ FetchResp.page last :: rest)
      = pagesRecords good ++ last.results.getD [] ∧
    run_fetch (good.map FetchResp.page ++ FetchResp.page last :: rest)
      = run_fetch (good.map FetchResp.page ++ [FetchResp.page last]) := by
  have key : ∀ l : List FetchResp,
      run_fetch (good.map FetchResp.page ++ FetchResp.page last :: l)
        = pagesRecords good ++ last.results.getD [] := by
    intro l
    unfold run_fetch
    rw [fetchPages_good_block good _ [] hg,
      fetchPages_terminal last l _ hlast hstop]
    simp
  exact ⟨key rest, (key rest).trans (key []).symm⟩

/-- Witness for C1: one full page, then a last page without a next-page
URL, then a response that must never be requested. -/
theorem C1_pagination_accumulates_and_stops_witness :
    run_fetch
        [FetchResp.page (PageData.mk (Option.some "OK") Option.none
           (Option.some [[("ticker", PyVal.str "A")]]) (Option.some "u")),
         FetchResp.page (PageData.mk (Option.some "OK") Option.none
           (Option.some [[("ticker", PyVal.str "B")]]) Option.none),
         FetchResp.badJson "x"]
      = [[("ticker", PyVal.str "A")], [("ticker", PyVal.str "B")]] :=
  (C1_pagination_accumulates_and_stops
      [PageData.mk (Option.some "OK") Option.none
         (Option.some [[("ticker", PyVal.str "A")]]) (Option.some "u")]
      (PageData.mk (Option.some "OK") Option.none
         (Option.some [[("ticker", PyVal.str "B")]]) Option.none)
      [FetchResp.badJson "x"]
      (by decide) rfl (Or.inr rfl)).1

/-- Claim C2: when pagination aborts on bad JSON or a non-`"OK"` status
after accumulating a non-empty record list, the job still hands exactly
those records to the writer, which (absent warehouse errors) batch-inserts
them. -/
theorem C2_aborted_fetch_still_written (env : WhEnv) (ds_value : String)
    (good : List PageData) (r : FetchResp) (rest : List FetchResp)
    (hg : ∀ p ∈ good, goodPage p) (hne : good ≠ [])
    (habort : (∃ b, r = FetchResp.badJson b) ∨
      (∃ p, r = FetchResp.page p ∧ p.status ≠ Option.some "OK")) :
    (run_stock_job env ds_value
        (good.map FetchResp.page ++ r :: rest)).writerArg
      = pagesRecords good ∧
    pagesRecords good ≠ [] ∧
    (env = WhEnv.mk Option.none Option.none Option.none →
      WhAction.insertRows ((pagesRecords good).map (mapRow ds_value)) ∈
        (run_stock_job env ds_value
          (good.map FetchResp.page ++ r :: rest)).writeRes.actions) := by
  have hfetch : run_fetch (good.map FetchResp.page ++ r :: rest)
      = pagesRecords good := by
    unfold run_fetch
    rw [fetchPages_good_block good _ [] hg, fetchPages_abort r rest _ habort]
    simp
  have hnonempty : pagesRecords good ≠ [] := by
    match good, hg, hne with
    | q :: qs, hg, _ =>
      have hq := hg q (List.mem_cons_self q qs)
      have hqres : q.results.getD [] ≠ [] := by
        intro h0
        have h2 := hq.2.1
        rw [h0] at h2
        simp at h2
      intro h0
      simp [pagesRecords] at h0
      exact hqres h0.1
  refine ⟨by simp [run_stock_job, hfetch], hnonempty, ?_⟩
  intro henv
  subst henv
  have ht : (pagesRecords good).isEmpty = false := by
    simp [List.isEmpty_iff, hnonempty]
  have hrows : ((pagesRecords good).map (mapRow ds_value)).isEmpty = false := by
    simp [List.isEmpty_iff, hnonempty]
  simp [run_stock_job, hfetch, write_to_snowflake, ht, hrows]

/-- Witness for C2: one good page, then undecodable JSON; the single
accumulated record reaches the writer and is inserted. -/
theorem C2_aborted_fetch_still_written_witness :
    (run_stock_job (WhEnv.mk Option.none Option.none Option.none)
        "2026-10-12"
        [FetchResp.page (PageData.mk (Option.some "OK") Option.none
           (Option.some [[("ticker", PyVal.str "A")]]) (Option.some "u")),
         FetchResp.badJson "oops"]).writerArg
      = [[("ticker", PyVal.str "A")]] ∧
    WhAction.insertRows [mapRow "2026-10-12" [("ticker", PyVal.str "A")]] ∈
      (run_stock_job (WhEnv.mk Option.none Option.none Option.none)
        "2026-10-12"
        [FetchResp.page (PageData.mk (Option.some "OK") Option.none
           (Option.some [[("ticker", PyVal.str "A")]]) (Option.some "u")),
         FetchResp.badJson "oops"]).writeRes.actions :=
  ⟨(C2_aborted_fetch_still_written
      (WhEnv.mk Option.none Option.none Option.none) "2026-10-12"
      [PageData.mk (Option.some "OK") Option.none
         (Option.some [[("ticker", PyVal.str "A")]]) (Option.some "u")]
      (FetchResp.badJson "oops") []
      (by decide) (by decide) (Or.inl ⟨"oops", rfl⟩)).1,
   (C2_aborted_fetch_still_written
      (WhEnv.mk Option.none Option.none Option.none) "2026-10-12"
      [PageData.mk (Option.some "OK") Option.none
         (Option.some [[("ticker", PyVal.str "A")]]) (Option.some "u")]
      (FetchResp.badJson "oops") []
      (by decide) (by decide) (Or.inl ⟨"oops", rfl⟩)).2.2 rfl⟩

/-- Claim C8: the scheduler wrapper catches every job exception, so the
polling loop survives any finite sequence of fired triggers, and a failed
run logs the timestamped failure line while letting no exception
escape. -/
theorem C8_scheduler_survives_job_failures (ticks : List Tick) :
    scheduler_loop_survives ticks = true ∧
    (∀ (nowStart nowEnd ds_value e : String) (env : WhEnv)
        (resps : List FetchResp),
      (run_stock_job env ds_value resps).writeRes.exc = Option.some e →
      (scheduled_stock_job nowStart nowEnd env ds_value resps).exc
          = Option.none ∧
      (" Stock data sync failed at " ++ nowEnd ++ ": " ++ e) ∈
        (scheduled_stock_job nowStart nowEnd env ds_value resps).log) := by
  constructor
  · induction ticks with
    | nil => rfl
    | cons t ts ih =>
      rw [scheduler_loop_survives, scheduled_stock_job_exc]
      exact ih
  · intro nowStart nowEnd ds_value e env resps h
    refine ⟨scheduled_stock_job_exc _ _ _ _ _, ?_⟩
    simp [scheduled_stock_job, h]

/-- Witness for C8: a tick whose run fails at the warehouse connect step
does not kill the loop, and the failure line is logged. -/
theorem C8_scheduler_survives_job_failures_witness :
    scheduler_loop_survives
        [Tick.mk "09:00:00" "09:00:05"
          (WhEnv.mk (Option.some "boom") Option.none Option.none)
          "2026-10-12"
          [FetchResp.page (PageData.mk (Option.some "OK") Option.none
             (Option.some [[("ticker", PyVal.str "A")]]) Option.none)]]
      = true ∧
    (" Stock data sync failed at " ++ "09:00:05" ++ ": " ++ "boom") ∈
      (scheduled_stock_job "09:00:00" "09:00:05"
        (WhEnv.mk (Option.some "boom") Option.none Option.none)
        "2026-10-12"
        [FetchResp.page (PageData.mk (Option.some "OK") Option.none
           (Option.some [[("ticker", PyVal.str "A")]]) Option.none)]).log :=
  ⟨(C8_scheduler_survives_job_failures
      [Tick.mk "09:00:00" "09:00:05"
        (WhEnv.mk (Option.some "boom") Option.none Option.none)
        "2026-10-12"
        [FetchResp.page (PageData.mk (Option.some "OK") Option.none
           (Option.some [[("ticker", PyVal.str "A")]]) Option.none)]]).1,
   ((C8_scheduler_survives_job_failures []).2 "09:00:00" "09:00:05"
      "2026-10-12" "boom"
      (WhEnv.mk (Option.some "boom") Option.none Option.none)
      [FetchResp.page (PageData.mk (Option.some "OK") Option.none
         (Option.some [[("ticker", PyVal.str "A")]]) Option.none)]
      (by decide)).2⟩

/-- Claim C10: a status-`"OK"` response without a `results` key behaves
exactly like one with an empty result list — pagination ends there as a
natural end, later responses are never consumed, and the records of the
earlier pages are still handed to the writer. -/
theorem C10_missing_results_key_is_natural_end (env : WhEnv)
    (ds_value : String) (good : List PageData) (p : PageData)
    (rest : List FetchResp)
    (hg : ∀ q ∈ good, goodPage q)
    (hOK : p.status = Option.some "OK")
    (hnores : p.results = Option.none) :
    run_fetch (good.map FetchResp.page ++ FetchResp.page p :: rest)
      = pagesRecords good ∧
    run_fetch (good.map FetchResp.page ++ FetchResp.page p :: rest)
      = run_fetch (good.map FetchResp.page
          ++ FetchResp.page { p with results := Option.some [] } :: rest) ∧
    (run_stock_job env ds_value
        (good.map FetchResp.page ++ FetchResp.page p :: rest)).writerArg
      = pagesRecords good := by
  have h1 : run_fetch (good.map FetchResp.page ++ FetchResp.page p :: rest)
      = pagesRecords good := by
    unfold run_fetch
    rw [fetchPages_good_block good _ [] hg,
      fetchPages_terminal p rest _ hOK (Or.inl (by simp [hnores]))]
    simp [hnores]
  have h2 : run_fetch (good.map FetchResp.page
      ++ FetchResp.page { p with results := Option.some [] } :: rest)
      = pagesRecords good := by
    unfold run_fetch
    rw [fetchPages_good_block good _ [] hg,
      fetchPages_terminal { p with results := Option.some [] } rest _ hOK
        (Or.inl (by simp))]
    simp
  exact ⟨h1, h1.trans h2.symm, by simp [run_stock_job, h1]⟩

/-- Witness for C10: one good page, then an `"OK"` page with no `results`
key; only the first page's record is fetched and handed to the writer. -/
theorem C10_missing_results_key_is_natural_end_witness :
    run_fetch
        [FetchResp.page (PageData.mk (Option.some "OK") Option.none
           (Option.some [[("ticker", PyVal.str "A")]]) (Option.some "u")),
         FetchResp.page (PageData.mk (Option.some "OK") Option.none
           Option.none (Option.some "u2"))]
      = [[("ticker", PyVal.str "A")]] ∧
    (run_stock_job (WhEnv.mk Option.none Option.none Option.none)
        "2026-10-12"
        [FetchResp.page (PageData.mk (Option.some "OK") Option.none
           (Option.some [[("ticker", PyVal.str "A")]]) (Option.some "u")),
         FetchResp.page (PageData.mk (Option.some "OK") Option.none
           Option.none (Option.some "u2"))]).writerArg
      = [[("ticker", PyVal.str "A")]] :=
  ⟨(C10_missing_results_key_is_natural_end
      (WhEnv.mk Option.none Option.none Option.none) "2026-10-12"
      [PageData.mk (Option.some "OK") Option.none
         (Option.some [[("ticker", PyVal.str "A")]]) (Option.some "u")]
      (PageData.mk (Option.some "OK") Option.none Option.none
        (Option.some "u2"))
      []
      (by decide) rfl rfl).1,
   (C10_missing_results_key_is_natural_end
      (WhEnv.mk Option.none Option.none Option.none) "2026-10-12"
      [PageData.mk (Option.some "OK") Option.none
         (Option.some [[("ticker", PyVal.str "A")]]) (Option.some "u")]
      (PageData.mk (Option.some "OK") Option.none Option.none
        (Option.some "u2"))
      []
      (by decide) rfl rfl).2.2⟩

/-- Claim C3: calling the writer with an empty batch returns at once with
only the `"No tickers to write"` line: no connection attempt, no DDL or
DML action, and any warehouse state is left unchanged by its (empty)
action trace. -/
theorem C3_empty_batch_short_circuits (env : WhEnv) (ds_value : String) :
    write_to_snowflake env ds_value [] =
      { log := ["No tickers to write"], actions := [], exc := Option.none } ∧
    (∀ w : Warehouse,
      applyActions w (write_to_snowflake env ds_value []).actions = w) := by
  constructor
  · simp [write_to_snowflake]
  · intro w
    simp [write_to_snowflake, applyActions]

/-- Claim C4: every row appearing in a batched-insert action of the
writer carries the run's single `ds_value` in the `ds` column (index 12,
the last schema column), and that entry is identical across all rows of
the batch. -/
theorem C4_load_date_single_value_per_run (env : WhEnv) (ds_value : String)
    (tickers : List Record) (rs : List (List PyVal))
    (hmem : WhAction.insertRows rs ∈
      (write_to_snowflake env ds_value tickers).actions) :
    (∀ r ∈ rs, r[12]? = Option.some (PyVal.str ds_value)) ∧
    (∀ r1 ∈ rs, ∀ r2 ∈ rs, r1[12]? = r2[12]?) := by
  have hrs := insert_action_rows env ds_value tickers rs hmem
  subst hrs
  have hall : ∀ r ∈ tickers.map (mapRow ds_value),
      r[12]? = Option.some (PyVal.str ds_value) := by
    intro r hr
    rcases List.mem_map.mp hr with ⟨t, -, rfl⟩
    exact mapRow_ds ds_value t
  exact ⟨hall, fun r1 h1 r2 h2 => (hall r1 h1).trans (hall r2 h2).symm⟩

/-- Witness for C4 at a concrete one-record batch. -/
theorem C4_load_date_single_value_per_run_witness :
    (mapRow "2026-10-12" [("ticker", PyVal.str "AAPL")])[12]? =
      Option.some (PyVal.str "2026-10-12") :=
  (C4_load_date_single_value_per_run
      ⟨Option.none, Option.none, Option.none⟩ "2026-10-12"
      [[("ticker", PyVal.str "AAPL")]]
      [mapRow "2026-10-12" [("ticker", PyVal.str "AAPL")]]
      (by decide)).1
    (mapRow "2026-10-12" [("ticker", PyVal.str "AAPL")]) (by decide)

/-- Claim C5: a field whose raw value is the text `"true"`/`"false"` up to
case becomes the corresponding boolean; booleans, `None`, other values,
and all other strings pass through `coerce` unchanged. -/
theorem C5_boolean_coercion :
    (∀ s : String, pyLower s = "true" →
       coerce (PyVal.str s) = PyVal.bool true) ∧
    (∀ s : String, pyLower s = "false" →
       coerce (PyVal.str s) = PyVal.bool false) ∧
    (∀ b : Bool, coerce (PyVal.bool b) = PyVal.bool b) ∧
    (coerce PyVal.none = PyVal.none) ∧
    (∀ tag : String, coerce (PyVal.other tag) = PyVal.other tag) ∧
    (∀ s : String, pyLower s ≠ "true" → pyLower s ≠ "false" →
       coerce (PyVal.str s) = PyVal.str s) := by
  refine ⟨?_, ?_, fun b => rfl, rfl, fun tag => rfl, ?_⟩
  · intro s hs
    simp [coerce, hs]
  · intro s hs
    simp [coerce, hs]
  · intro s h1 h2
    simp [coerce, h1, h2]

/-- Witness for C5 on `"TRUE"`, `"false"`, a genuine boolean, and a
non-boolean string. -/
theorem C5_boolean_coercion_witness :
    coerce (PyVal.str "TRUE") = PyVal.bool true ∧
    coerce (PyVal.str "false") = PyVal.bool false ∧
    coerce (PyVal.bool false) = PyVal.bool false ∧
    coerce (PyVal.str "AAPL") = PyVal.str "AAPL" :=
  ⟨C5_boolean_coercion.1 "TRUE" (by decide),
   C5_boolean_coercion.2.1 "false" (by decide),
   C5_boolean_coercion.2.2.1 false,
   C5_boolean_coercion.2.2.2.2.2 "AAPL" (by decide) (by decide)⟩

/-- Claim C6: the mapper yields exactly one row per input record, each row
covering all 13 schema columns in `cols_order`; every non-`ds` column
holds the coerced same-named record field, and an absent field reads as
`None` with no default substituted. -/
theorem C6_one_row_per_record_schema_aligned (ds_value : String)
    (tickers : List Record) :
    (tickers.map (mapRow ds_value)).length = tickers.length ∧
    (∀ t : Record, (mapRow ds_value t).length = cols_order.length) ∧
    (∀ t : Record, ∀ c ∈ cols_order, c ≠ "ds" →
       (mapRow ds_value t)[cols_order.indexOf c]? =
         Option.some (coerce (recGet t c))) ∧
    (∀ t : Record, ∀ c : String, List.lookup c t = Option.none →
       recGet t c = PyVal.none) := by
  refine ⟨by simp, fun t => mapRow_length ds_value t, ?_, ?_⟩
  · intro t c hc hne
    simp [cols_order, TARGET_SCHEMA] at hc
    rcases hc with rfl | rfl | rfl | rfl | rfl | rfl | rfl | rfl | rfl | rfl | rfl | rfl | rfl <;>
      first
        | exact absurd rfl hne
        | rfl
  · intro t c hl
    simp [recGet, hl]

/-- Witness for C6: the `active` column of a concrete record, and an
absent `name` field reading as `None`. -/
theorem C6_one_row_per_record_schema_aligned_witness :
    (mapRow "2026-10-12" [("ticker", PyVal.str "AAPL")])[cols_order.indexOf "active"]? =
      Option.some (coerce (recGet [("ticker", PyVal.str "AAPL")] "active")) ∧
    recGet [("ticker", PyVal.str "AAPL")] "name" = PyVal.none :=
  ⟨(C6_one_row_per_record_schema_aligned "2026-10-12" []).2.2.1
      [("ticker", PyVal.str "AAPL")] "active" (by decide) (by decide),
   (C6_one_row_per_record_schema_aligned "2026-10-12" []).2.2.2
      [("ticker", PyVal.str "AAPL")] "name" (by decide)⟩

/-- Claim C7: on a non-empty batch, an exception raised at the connect,
create-table, or insert step makes the writer print
`"Snowflake error: ..."` and re-raise that same exception. -/
theorem C7_writer_logs_and_reraises (env : WhEnv) (ds_value e : String)
    (tickers : List Record) (hne : tickers ≠ [])
    (hfail : env.connectErr = Option.some e ∨
      (env.connectErr = Option.none ∧ env.createErr = Option.some e) ∨
      (env.connectErr = Option.none ∧ env.createErr = Option.none ∧
        env.insertErr = Option.some e)) :
    (write_to_snowflake env ds_value tickers).exc = Option.some e ∧
    ("Snowflake error: " ++ e) ∈
      (write_to_snowflake env ds_value tickers).log := by
  have ht : tickers.isEmpty = false := by simp [List.isEmpty_iff, hne]
  have hrows : (tickers.map (mapRow ds_value)).isEmpty = false := by
    simp [List.isEmpty_iff, hne]
  rcases hfail with hc | ⟨hc, hcr⟩ | ⟨hc, hcr, hi⟩
  · simp [write_to_snowflake, ht, hc]
  · simp [write_to_snowflake, ht, hc, hcr]
  · simp [write_to_snowflake, ht, hc, hcr, hrows, hi]

/-- Witness for C7: a connect failure on a one-record batch. -/
theorem C7_writer_logs_and_reraises_witness :
    (write_to_snowflake ⟨Option.some "boom", Option.none, Option.none⟩
        "2026-10-12" [[("ticker", PyVal.str "AAPL")]]).exc =
      Option.some "boom" ∧
    ("Snowflake error: " ++ "boom") ∈
      (write_to_snowflake ⟨Option.some "boom", Option.none, Option.none⟩
        "2026-10-12" [[("ticker", PyVal.str "AAPL")]]).log :=
  C7_writer_logs_and_reraises ⟨Option.some "boom", Option.none, Option.none⟩
    "2026-10-12" "boom" [[("ticker", PyVal.str "AAPL")]]
    (by decide) (Or.inl rfl)

/-- Claim C9: the mapped row never reads the record's `ds` field — two
records agreeing on every field other than `ds` map to identical rows —
and the row's `ds` slot is the run's computed load date. -/
theorem C9_ds_field_ignored (ds_value : String) (t1 t2 : Record)
    (h : ∀ c : String, c ≠ "ds" → recGet t1 c = recGet t2 c) :
    mapRow ds_value t1 = mapRow ds_value t2 ∧
    (mapRow ds_value t1)[12]? = Option.some (PyVal.str ds_value) := by
  constructor
  · unfold mapRow
    refine List.map_congr_left ?_
    intro col _
    by_cases hcol : col = "ds"
    · simp [hcol]
    · simp [hcol, h col hcol]
  · exact mapRow_ds ds_value t1

/-- Witness for C9: an API-supplied `ds` field is invisible to the
mapper. -/
theorem C9_ds_field_ignored_witness :
    mapRow "2026-10-12"
        [("ds", PyVal.str "1999-01-01"), ("ticker", PyVal.str "AAPL")] =
      mapRow "2026-10-12" [("ticker", PyVal.str "AAPL")] :=
  (C9_ds_field_ignored "2026-10-12"
      [("ds", PyVal.str "1999-01-01"), ("ticker", PyVal.str "AAPL")]
      [("ticker", PyVal.str "AAPL")]
      (by
        intro c hc
        have hb : (c == "ds") = false := beq_eq_false_iff_ne.mpr hc
        simp [recGet, List.lookup, hb])).1

end StockJob
